import Mathlib

/-!
Verification of the dognap cookie extractor (src/main.rs) against its
natural-language specification.

The development shallowly embeds the program:
* `MozCookie` and `MozCookie.fmt` embed the `MozCookie` struct and the
  `Display` impl for `MozCookieFmt`.
* `build_formatter` embeds the SQL placeholder-list generator.
* `walkEntry`/`walkChildren`/`walkRoot`/`search`/`get_db_path` embed the
  profile discovery over an explicit filesystem tree model (the `walkdir`
  traversal with `contents_first(true)`).
* `SqlRow`/`decodeCookie`/`decodeRows` embed the row mapping done via
  rusqlite's `query_map` + `collect`.
* `run` embeds the `run` function as a pure function from an abstract
  `World` (data dir, home dir, filesystem, database) to the list of
  observable events (discovery, store open, query, file creation, writes)
  together with the `anyhow::Result<()>` outcome; `main_result` embeds the
  exit-code / stderr plumbing in `main`.
-/

namespace Dognap

/-! ## Data model -/

/-- The `MozCookie` struct: one extracted row of `moz_cookies`. -/
structure MozCookie where
  host : String
  path : String
  expiry : Int
  name : String
  value : String
deriving Repr, DecidableEq

/-- The `COOKIE_FILE_HEADER` static: four comment lines, no trailing newline. -/
def COOKIE_FILE_HEADER : String :=
  "# Netscape HTTP Cookie File\n# http://curl.haxx.se/rfc/cookie_spec.html\n# This is a generated file!  Do not edit.\n# ALL SPACES MUST BE TABS! - IT WILL THROW AN ERROR!"

/-- The `Display` impl for `MozCookieFmt`:
`write!(f, "{}\tTRUE\t{}\tFALSE\t{}\t{}\t{}", host, path, expiry, name, value)`.
Rust renders the `i64` field `expiry` in decimal, which is `Int.repr`. -/
def MozCookie.fmt (c : MozCookie) : String :=
  c.host ++ "\tTRUE\t" ++ c.path ++ "\tFALSE\t" ++ Int.repr c.expiry ++ "\t" ++ c.name ++ "\t" ++ c.value

/-! ## Placeholder-list generator (`build_formatter`) -/

/-- The loop body of `build_formatter`: `for _ in 0..len { buf.push_str(",?") }`. -/
def pushLoop : Nat → String → String
  | 0, buf => buf
  | k + 1, buf => pushLoop k (buf ++ ",?")

/-- `build_formatter` from src/main.rs: `""` for 0, `"?"` for 1, and for `n ≥ 2`
a buffer seeded with `"?"` to which `",?"` is pushed `n - 1` times. -/
def build_formatter (len : Nat) : String :=
  match len with
  | 0 => ""
  | 1 => "?"
  | n => pushLoop (n - 1) "?"

/-! ## Sinks (`save_to_path` / `format_stdout`)

Each Rust sink performs one `writeln!(_, "{}\n", COOKIE_FILE_HEADER)` followed by
one `writeln!(_, "{}", cookie.fmt())` per record.  The two functions are
transcribed separately, mirroring the duplication in the source. -/

/-- The sequence of chunks `save_to_path` writes to the created file. -/
def save_to_path_writes (cookies : List MozCookie) : List String :=
  (COOKIE_FILE_HEADER ++ "\n" ++ "\n") :: cookies.map (fun c => c.fmt ++ "\n")

/-- The byte content `save_to_path` leaves in the file. -/
def save_to_path_content (cookies : List MozCookie) : String :=
  String.join (save_to_path_writes cookies)

/-- The sequence of chunks `format_stdout` writes to the locked stdout handle. -/
def format_stdout_writes (cookies : List MozCookie) : List String :=
  (COOKIE_FILE_HEADER ++ "\n" ++ "\n") :: cookies.map (fun c => c.fmt ++ "\n")

/-- The byte content `format_stdout` sends to standard output. -/
def format_stdout_content (cookies : List MozCookie) : String :=
  String.join (format_stdout_writes cookies)

/-! ## Helper lemmas: placeholder generator -/

/-- Spec-side description of the loop's output: `",?"` repeated `k` times. -/
def repeatQ : Nat → String
  | 0 => ""
  | k + 1 => ",?" ++ repeatQ k

theorem pushLoop_eq (k : Nat) : ∀ buf : String, pushLoop k buf = buf ++ repeatQ k := by
  induction k with
  | zero => intro buf; rw [pushLoop, repeatQ, String.append_empty]
  | succ k ih =>
    intro buf
    rw [pushLoop, repeatQ, ih, String.append_assoc]

theorem intercalate_go_replicate (m : Nat) :
    ∀ acc : String, String.intercalate.go acc "," (List.replicate m "?") = acc ++ repeatQ m := by
  induction m with
  | zero => intro acc; rw [List.replicate, String.intercalate.go, repeatQ, String.append_empty]
  | succ m ih =>
    intro acc
    rw [List.replicate_succ, String.intercalate.go, ih, repeatQ, String.append_assoc,
      String.append_assoc, ← String.append_assoc "," "?" (repeatQ m)]
    have h : ("," ++ "?" : String) = ",?" := rfl
    rw [h]

theorem build_formatter_eq_intercalate (n : Nat) :
    build_formatter n = String.intercalate "," (List.replicate n "?") := by
  match n with
  | 0 => rfl
  | 1 => rfl
  | m + 2 =>
    show pushLoop (m + 2 - 1) "?" = String.intercalate "," (List.replicate (m + 2) "?")
    rw [List.replicate_succ, String.intercalate, intercalate_go_replicate, pushLoop_eq]
    rfl

theorem repeatQ_data_count (k : Nat) :
    ((repeatQ k).data.count '?' = k) ∧ ((repeatQ k).data.count ',' = k) := by
  induction k with
  | zero => exact ⟨rfl, rfl⟩
  | succ k ih =>
    have hd : (",?" ++ repeatQ k).data = ',' :: '?' :: (repeatQ k).data := by
      rw [String.data_append]; rfl
    constructor
    · rw [repeatQ, hd]
      simp [List.count_cons, ih.1]
    · rw [repeatQ, hd]
      simp [List.count_cons, ih.2]

theorem build_formatter_counts (n : Nat) :
    ((build_formatter n).data.count '?' = n) ∧ ((build_formatter n).data.count ',' = n - 1) := by
  match n with
  | 0 => exact ⟨rfl, rfl⟩
  | 1 => exact ⟨rfl, rfl⟩
  | m + 2 =>
    have h : build_formatter (m + 2) = "?" ++ repeatQ (m + 1) := by
      show pushLoop (m + 2 - 1) "?" = _
      rw [pushLoop_eq]
      rfl
    have hd : ("?" ++ repeatQ (m + 1)).data = '?' :: (repeatQ (m + 1)).data := by
      rw [String.data_append]; rfl
    rw [h, hd]
    constructor
    · simp [List.count_cons, (repeatQ_data_count (m + 1)).1]
    · simp [List.count_cons, (repeatQ_data_count (m + 1)).2]

/-! ## Helper lemmas: decimal rendering contains no tab -/

theorem digitChar_lt_ten_ne_tab (d : Nat) (hd : d < 10) : Nat.digitChar d ≠ '\t' := by
  interval_cases d <;> decide

theorem toDigitsCore_ten_mem (f : Nat) : ∀ (n : Nat) (ds : List Char) (c : Char),
    c ∈ Nat.toDigitsCore 10 f n ds → c ∈ ds ∨ ∃ d, d < 10 ∧ c = Nat.digitChar d := by
  induction f with
  | zero => intro n ds c h; exact Or.inl h
  | succ f ih =>
    intro n ds c h
    rw [Nat.toDigitsCore] at h
    by_cases hz : n / 10 = 0
    · rw [if_pos hz] at h
      rcases List.mem_cons.mp h with h | h
      · exact Or.inr ⟨n % 10, Nat.mod_lt _ (by omega), h⟩
      · exact Or.inl h
    · rw [if_neg hz] at h
      rcases ih (n / 10) (Nat.digitChar (n % 10) :: ds) c h with h | h
      · rcases List.mem_cons.mp h with h | h
        · exact Or.inr ⟨n % 10, Nat.mod_lt _ (by omega), h⟩
        · exact Or.inl h
      · exact Or.inr h

theorem tab_not_mem_nat_repr (n : Nat) : '\t' ∉ (Nat.repr n).data := by
  intro h
  have h' : '\t' ∈ Nat.toDigitsCore 10 (n + 1) n [] := h
  rcases toDigitsCore_ten_mem (n + 1) n [] '\t' h' with h'' | ⟨d, hd, h''⟩
  · exact absurd h'' (List.not_mem_nil _)
  · exact digitChar_lt_ten_ne_tab d hd h''.symm

theorem tab_not_mem_int_repr (i : Int) : '\t' ∉ (Int.repr i).data := by
  cases i with
  | ofNat n => exact tab_not_mem_nat_repr n
  | negSucc n =>
    intro h
    have hrepr : Int.repr (Int.negSucc n) = "-" ++ Nat.repr (n + 1) := rfl
    rw [hrepr, String.data_append] at h
    rcases List.mem_append.mp h with h | h
    · exact absurd h (by decide)
    · exact tab_not_mem_nat_repr (n + 1) h

/-! ## Helper lemma: the formatted line at character level -/

theorem fmt_data (c : MozCookie) :
    (MozCookie.fmt c).data =
      ['\t'].intercalate
        [c.host.data, "TRUE".data, c.path.data, "FALSE".data,
         (Int.repr c.expiry).data, c.name.data, c.value.data] := by
  rw [MozCookie.fmt]
  simp [List.intercalate, List.intersperse, String.data_append, List.append_assoc]

/-! ## Claim theorems: formatter -/

/-- C1: for every cookie record the formatter renders exactly one newline-terminated
output chunk, whose body is host, tab, the constant `TRUE`, tab, path, tab, the
constant `FALSE`, tab, the expiry as a plain decimal integer, tab, name, tab,
value; the record at index `i` of the input sequence produces the chunk at
position `i + 1` of the sink's write sequence (position 0 being the header), in
both sinks, so records are emitted in input order.  The `TRUE`/`FALSE` fields
are constants: the record carries no flag fields at all and the formatter reads
only host, path, expiry, name and value. -/
theorem C1_formatter_renders_one_line_per_record_in_order
    (c : MozCookie) (cookies : List MozCookie) (i : Nat) :
    MozCookie.fmt c =
      String.intercalate "\t"
        [c.host, "TRUE", c.path, "FALSE", Int.repr c.expiry, c.name, c.value]
    ∧ (save_to_path_writes cookies)[i + 1]? =
        (cookies[i]?).map (fun ck => MozCookie.fmt ck ++ "\n")
    ∧ (format_stdout_writes cookies)[i + 1]? =
        (cookies[i]?).map (fun ck => MozCookie.fmt ck ++ "\n") := by
  refine ⟨?_, ?_, ?_⟩
  · apply String.ext
    rw [fmt_data]
    simp [String.intercalate, String.intercalate.go, List.intercalate, List.intersperse,
      String.data_append, List.append_assoc]
  · rw [save_to_path_writes, List.getElem?_cons_succ, List.getElem?_map]
  · rw [format_stdout_writes, List.getElem?_cons_succ, List.getElem?_map]

/-- C2: the placeholder-list generator returns `""` for 0, `"?"` for 1, and for
every count a comma-separated list of exactly `n` question-mark placeholders
(`n` placeholders, `n - 1` commas, no leading or trailing comma, as the
intercalation of `n` copies of `"?"` with separator `","`). -/
theorem C2_build_formatter_placeholders (n : Nat) :
    build_formatter 0 = ""
    ∧ build_formatter 1 = "?"
    ∧ build_formatter n = String.intercalate "," (List.replicate n "?")
    ∧ (build_formatter n).data.count '?' = n
    ∧ (build_formatter n).data.count ',' = n - 1 := by
  exact ⟨rfl, rfl, build_formatter_eq_intercalate n,
    (build_formatter_counts n).1, (build_formatter_counts n).2⟩

/-- C5: for every record sequence, the byte content the file sink writes equals
the byte content the stdout sink writes, chunk for chunk and in total. -/
theorem C5_file_content_equals_stdout_content (cookies : List MozCookie) :
    save_to_path_content cookies = format_stdout_content cookies
    ∧ save_to_path_writes cookies = format_stdout_writes cookies :=
  ⟨rfl, rfl⟩

/-- C9 counterexample: the claim quantifies over arbitrary field contents, but a
cookie whose value itself contains a tab character yields 8 fields, not 7, when
the emitted line is split on tabs. -/
theorem C9_counterexample_tab_in_value :
    ¬ (((MozCookie.fmt
          { host := "example.com", path := "/", expiry := 0,
            name := "k", value := "a\tb" }).data.splitOn '\t').length = 7) := by
  decide

/-- C9 (amended): for every cookie record whose host, path, name and value
contain no tab character, the emitted data line, when split on tab characters,
yields exactly 7 fields in the documented order: host, `TRUE`, path, `FALSE`,
expiry, name, value.  (The expiry's decimal rendering never contains a tab.) -/
theorem C9_amended_split_on_tab_yields_seven_fields (c : MozCookie)
    (hh : '\t' ∉ c.host.data) (hp : '\t' ∉ c.path.data)
    (hn : '\t' ∉ c.name.data) (hv : '\t' ∉ c.value.data) :
    (MozCookie.fmt c).data.splitOn '\t' =
      [c.host.data, "TRUE".data, c.path.data, "FALSE".data,
       (Int.repr c.expiry).data, c.name.data, c.value.data] := by
  rw [fmt_data]
  apply List.splitOn_intercalate
  · intro l hl
    simp only [List.mem_cons, List.not_mem_nil, or_false] at hl
    rcases hl with h | h | h | h | h | h | h
    · rw [h]; exact hh
    · rw [h]; decide
    · rw [h]; exact hp
    · rw [h]; decide
    · rw [h]; exact tab_not_mem_int_repr c.expiry
    · rw [h]; exact hn
    · rw [h]; exact hv
  · simp

/-- Witness for C9 (amended) at a concrete record. -/
theorem C9_amended_witness :
    ('\t' ∉ ("example.com" : String).data ∧ '\t' ∉ ("/" : String).data
      ∧ '\t' ∉ ("session" : String).data ∧ '\t' ∉ ("abc123" : String).data)
    ∧ (MozCookie.fmt
        { host := "example.com", path := "/", expiry := 1700000000,
          name := "session", value := "abc123" }).data.splitOn '\t' =
      [("example.com" : String).data, "TRUE".data, ("/" : String).data, "FALSE".data,
       (Int.repr 1700000000).data, ("session" : String).data, ("abc123" : String).data] :=
  ⟨⟨by decide, by decide, by decide, by decide⟩,
    C9_amended_split_on_tab_yields_seven_fields
      { host := "example.com", path := "/", expiry := 1700000000,
        name := "session", value := "abc123" }
      (by decide) (by decide) (by decide) (by decide)⟩

/-! ## Profile discovery (`get_db_path` / `search`)

The filesystem is modelled as a tree of entries; a path is its list of
components.  `walkEntry`/`walkChildren` embed the `walkdir` traversal with
`contents_first(true)`: a directory's contents are reported (in child order,
each subtree contents-first) before the directory entry itself.  A root that
does not exist in the filesystem yields no entries (in the Rust code the lone
`Err` entry produced by `walkdir` is dropped by `entry.ok()?`). -/

abbrev FsPath := List String

inductive FsEntry where
  | file (name : String)
  | dir (name : String) (children : List FsEntry)

mutual
/-- Contents-first traversal of one entry located at `pfx ++ [its name]`. -/
def walkEntry (pfx : FsPath) : FsEntry → List FsPath
  | .file n => [pfx ++ [n]]
  | .dir n cs => walkChildren (pfx ++ [n]) cs ++ [pfx ++ [n]]

/-- Contents-first traversal of a directory's children, in order. -/
def walkChildren (pfx : FsPath) : List FsEntry → List FsPath
  | [] => []
  | e :: es => walkEntry pfx e ++ walkChildren pfx es
end

/-- Traversal started at a root path: `WalkDir::new(root)` also yields the root
itself, after its contents. -/
def walkRoot (root : FsPath) : FsEntry → List FsPath
  | .file _ => [root]
  | .dir _ cs => walkChildren root cs ++ [root]

/-- `Path::file_name`: the final component of a path. -/
def fileName (p : FsPath) : Option String := p.getLast?

/-- The `search` function: iterate the contents-first walk of `root`, keep the
entries whose filename equals `target`, and return the first one.  A
nonexistent root (`none`) yields no match. -/
def search (root : FsPath) (entry : Option FsEntry) (target : String) : Option FsPath :=
  match entry with
  | none => none
  | some e => (walkRoot root e).find? (fun p => fileName p == some target)

/-- The filename `get_db_path` looks for. -/
def cookiesTarget : String := "cookies.sqlite"

/-- `dirs::data_dir()?.join("Mozilla\\Firefox\\Profiles")`. -/
def profilesDir (dataDir : FsPath) : FsPath := dataDir ++ ["Mozilla\\Firefox\\Profiles"]

/-- `dirs::home_dir()?.join(".mozilla/firefox")`. -/
def firefoxDir (homeDir : FsPath) : FsPath := homeDir ++ [".mozilla/firefox"]

/-- `get_db_path`: search the data-dir profile root first; if that yields
nothing, fall through to the home-directory root.  A missing data dir (or a
missing home dir when the fallback is reached) short-circuits to `none`. -/
def get_db_path (dataDir homeDir : Option FsPath) (fs : FsPath → Option FsEntry) : Option FsPath :=
  match dataDir with
  | none => none
  | some d =>
    match search (profilesDir d) (fs (profilesDir d)) cookiesTarget with
    | none =>
      match homeDir with
      | none => none
      | some h => search (firefoxDir h) (fs (firefoxDir h)) cookiesTarget
    | path => path

theorem find?_eq_head?_filter {α : Type} (p : α → Bool) (l : List α) :
    l.find? p = (l.filter p).head? := by
  induction l with
  | nil => rfl
  | cons a t ih =>
    cases h : p a with
    | true => rw [List.find?_cons_of_pos _ h, List.filter_cons_of_pos h, List.head?_cons]
    | false => rw [List.find?_cons_of_neg _ (by simp [h]), List.filter_cons_of_neg (by simp [h]), ih]

/-- C3: profile discovery is a contents-first depth-first traversal of each
candidate root in order (data-dir Mozilla profile root first, home-directory
`.mozilla/firefox` second), returning the first traversal entry whose filename
equals `cookies.sqlite`; a directory's contents precede the directory itself in
the traversal; a nonexistent root yields no match; if the first root yields no
match discovery falls through to the second; and a missing data directory, or
no match under any root, reports not-found. -/
theorem C3_profile_discovery
    (dataDir homeDir : Option FsPath) (fs : FsPath → Option FsEntry)
    (root d : FsPath) (e : FsEntry) (nm t : String) (cs : List FsEntry) :
    (walkRoot root (FsEntry.dir nm cs) = walkChildren root cs ++ [root])
    ∧ (walkRoot root (FsEntry.file nm) = [root])
    ∧ (search root (some e) t =
        ((walkRoot root e).filter (fun p => fileName p == some t)).head?)
    ∧ (search root none t = none)
    ∧ (dataDir = none → get_db_path dataDir homeDir fs = none)
    ∧ (dataDir = some d →
        get_db_path dataDir homeDir fs =
          match search (profilesDir d) (fs (profilesDir d)) cookiesTarget with
          | some p => some p
          | none =>
            match homeDir with
            | none => none
            | some h => search (firefoxDir h) (fs (firefoxDir h)) cookiesTarget) := by
  refine ⟨rfl, rfl, ?_, rfl, ?_, ?_⟩
  · show (walkRoot root e).find? (fun p => fileName p == some t) = _
    exact find?_eq_head?_filter _ _
  · intro h; rw [h]; rfl
  · intro h
    rw [h]
    cases hs : search (profilesDir d) (fs (profilesDir d)) cookiesTarget with
    | none => simp [get_db_path, hs]
    | some p => simp [get_db_path, hs]

/-- A demonstration filesystem: nothing under the data-dir profile root, and a
profile containing `cookies.sqlite` at depth 2 under the home-directory root. -/
def demoTree : FsEntry :=
  FsEntry.dir "firefox"
    [FsEntry.dir "abc.default" [FsEntry.file "prefs.js", FsEntry.file "cookies.sqlite"],
     FsEntry.file "profiles.ini"]

def demoFs : FsPath → Option FsEntry := fun p =>
  if p = firefoxDir ["home"] then some demoTree else none

/-- Witness for C3: with the data-dir root absent, discovery falls through to
the home-directory root and returns the nested `cookies.sqlite` path. -/
theorem C3_witness :
    get_db_path (some ["data"]) (some ["home"]) demoFs =
      some (firefoxDir ["home"] ++ ["abc.default", "cookies.sqlite"]) := by
  have h := (C3_profile_discovery (some ["data"]) (some ["home"]) demoFs
    [] ["data"] (FsEntry.file "x") "n" cookiesTarget []).2.2.2.2.2 rfl
  rw [h]
  decide

/-! ## Database model and the extraction pipeline (`run` / `main`) -/

inductive SqlValue where
  | int (i : Int)
  | text (s : String)
  | null
deriving Repr, DecidableEq

/-- A result row: column values addressed by column name, as rusqlite's
`row.get("…")` does. -/
abbrev SqlRow := List (String × SqlValue)

def getColumn (row : SqlRow) (col : String) : Option SqlValue :=
  (row.find? (fun kv => kv.1 == col)).map (fun kv => kv.2)

/-- `row.get::<_, String>(col)`: fails when the column is missing or not text. -/
def getText (row : SqlRow) (col : String) : Except String String :=
  match getColumn row col with
  | some (SqlValue.text s) => Except.ok s
  | some _ => Except.error ("invalid column type: " ++ col)
  | none => Except.error ("invalid column name: " ++ col)

/-- `row.get::<_, i64>(col)`: fails when the column is missing or not an integer. -/
def getInt (row : SqlRow) (col : String) : Except String Int :=
  match getColumn row col with
  | some (SqlValue.int i) => Except.ok i
  | some _ => Except.error ("invalid column type: " ++ col)
  | none => Except.error ("invalid column name: " ++ col)

/-- The row-mapping closure passed to `query_map`, field by field in the order
of the Rust struct literal; the first failing `?` aborts the row. -/
def decodeCookie (row : SqlRow) : Except String MozCookie := do
  let host ← getText row "host"
  let path ← getText row "path"
  let expiry ← getInt row "expiry"
  let name ← getText row "name"
  let value ← getText row "value"
  pure { host := host, path := path, expiry := expiry, name := name, value := value }

/-- `collect::<Result<Vec<_>, _>>()` over the mapped rows: any row-decode
failure yields `Err`, returning no record list at all. -/
def decodeRows (rows : List SqlRow) : Except String (List MozCookie) :=
  rows.mapM decodeCookie

/-- Behaviour of an opened store: whether preparing a given query text fails,
and the rows a prepared query yields for given positional parameters. -/
structure Db where
  prepareError : String → Option String
  resultRows : String → List String → List SqlRow

/-- The ambient world `run` interacts with: platform directories, filesystem,
and the result of opening a store file. -/
structure World where
  dataDir : Option FsPath
  homeDir : Option FsPath
  fs : FsPath → Option FsEntry
  openDb : FsPath → Except String Db

inductive Sink where
  | stdout
  | file (path : String)
deriving Repr, DecidableEq

/-- Observable effects of a run, in order of occurrence. -/
inductive Event where
  | discover
  | openStore (p : FsPath)
  | query (text : String) (params : List String)
  | createFile (path : String)
  | write (sink : Sink) (content : String)
deriving Repr, DecidableEq

/-- The SQL text constructed in `run`: the placeholder list sized to the host
count is spliced into the `in (...)` clause (the Rust string-literal `\`
line continuations collapse, leaving the single-space text below). -/
def query_for (hosts : List String) : String :=
  "select name, value, host, path, expiry from moz_cookies where host in ("
    ++ build_formatter hosts.length ++ ")"

/-- The `run` function as a pure transition from a `World` to the list of
observable events together with the `anyhow::Result<()>` outcome.  Each `Err`
short-circuits exactly where the corresponding `?` does in the Rust: before the
sink is ever reached, so no file is created and nothing is written. -/
def run (hosts : List String) (output : Option String) (w : World) :
    List Event × Except String Unit :=
  if hosts.isEmpty then ([], Except.ok ())
  else
    match get_db_path w.dataDir w.homeDir w.fs with
    | none => ([Event.discover], Except.error "cookie db not found")
    | some dbPath =>
      match w.openDb dbPath with
      | Except.error e => ([Event.discover, Event.openStore dbPath], Except.error e)
      | Except.ok db =>
        match db.prepareError (query_for hosts) with
        | some e =>
          ([Event.discover, Event.openStore dbPath, Event.query (query_for hosts) hosts],
           Except.error e)
        | none =>
          match decodeRows (db.resultRows (query_for hosts) hosts) with
          | Except.error e =>
            ([Event.discover, Event.openStore dbPath, Event.query (query_for hosts) hosts],
             Except.error e)
          | Except.ok cookies =>
            match output with
            | some path =>
              ([Event.discover, Event.openStore dbPath, Event.query (query_for hosts) hosts,
                Event.createFile path,
                Event.write (Sink.file path) (save_to_path_content cookies)],
               Except.ok ())
            | none =>
              ([Event.discover, Event.openStore dbPath, Event.query (query_for hosts) hosts,
                Event.write Sink.stdout (format_stdout_content cookies)],
               Except.ok ())

/-- `main`: exit code 0 on success; on `Err`, the message on stderr and exit 1. -/
def main_result (hosts : List String) (output : Option String) (w : World) :
    Nat × Option String :=
  match (run hosts output w).2 with
  | Except.ok _ => (0, none)
  | Except.error e => (1, some e)

theorem run_cons_eq (a : String) (t : List String) (output : Option String) (w : World) :
    run (a :: t) output w =
      match get_db_path w.dataDir w.homeDir w.fs with
      | none => ([Event.discover], Except.error "cookie db not found")
      | some dbPath =>
        match w.openDb dbPath with
        | Except.error e => ([Event.discover, Event.openStore dbPath], Except.error e)
        | Except.ok db =>
          match db.prepareError (query_for (a :: t)) with
          | some e =>
            ([Event.discover, Event.openStore dbPath, Event.query (query_for (a :: t)) (a :: t)],
             Except.error e)
          | none =>
            match decodeRows (db.resultRows (query_for (a :: t)) (a :: t)) with
            | Except.error e =>
              ([Event.discover, Event.openStore dbPath, Event.query (query_for (a :: t)) (a :: t)],
               Except.error e)
            | Except.ok cookies =>
              match output with
              | some path =>
                ([Event.discover, Event.openStore dbPath, Event.query (query_for (a :: t)) (a :: t),
                  Event.createFile path,
                  Event.write (Sink.file path) (save_to_path_content cookies)],
                 Except.ok ())
              | none =>
                ([Event.discover, Event.openStore dbPath, Event.query (query_for (a :: t)) (a :: t),
                  Event.write Sink.stdout (format_stdout_content cookies)],
                 Except.ok ()) := rfl

/-- C4: for an empty hostname list the pipeline performs no discovery, opens no
database, issues no query and writes nothing (the event trace is empty), and
returns success with exit code 0 and no error message. -/
theorem C4_empty_hosts_no_work (output : Option String) (w : World) :
    run [] output w = ([], Except.ok ()) ∧ main_result [] output w = (0, none) :=
  ⟨rfl, rfl⟩

/-! ## Helper lemmas: joined output content -/

theorem string_foldl_append (l : List String) :
    ∀ acc : String, l.foldl (· ++ ·) acc = acc ++ l.foldl (· ++ ·) "" := by
  induction l with
  | nil => intro acc; rw [List.foldl_nil, List.foldl_nil, String.append_empty]
  | cons b l ih =>
    intro acc
    rw [List.foldl_cons, List.foldl_cons, ih (acc ++ b), ih ("" ++ b), String.append_assoc]
    have hb : ("" ++ b : String) = b := by
      apply String.ext
      rw [String.data_append]
      rfl
    rw [hb]

theorem join_cons (a : String) (l : List String) :
    String.join (a :: l) = a ++ String.join l := by
  show (a :: l).foldl (· ++ ·) "" = a ++ l.foldl (· ++ ·) ""
  rw [List.foldl_cons, string_foldl_append l]
  have ha : ("" ++ a : String) = a := by
    apply String.ext
    rw [String.data_append]
    rfl
  rw [ha]

theorem save_to_path_content_eq (cookies : List MozCookie) :
    save_to_path_content cookies =
      COOKIE_FILE_HEADER ++ "\n" ++ "\n"
        ++ String.join (cookies.map (fun c => MozCookie.fmt c ++ "\n")) := by
  show String.join ((COOKIE_FILE_HEADER ++ "\n" ++ "\n") :: cookies.map (fun c => c.fmt ++ "\n")) = _
  rw [join_cons]

theorem format_stdout_content_eq (cookies : List MozCookie) :
    format_stdout_content cookies =
      COOKIE_FILE_HEADER ++ "\n" ++ "\n"
        ++ String.join (cookies.map (fun c => MozCookie.fmt c ++ "\n")) := by
  show String.join ((COOKIE_FILE_HEADER ++ "\n" ++ "\n") :: cookies.map (fun c => c.fmt ++ "\n")) = _
  rw [join_cons]

/-! ## Helper lemma: shape of a query event in any trace -/

theorem query_event_shape (hosts : List String) (output : Option String) (w : World)
    (q : String) (ps : List String)
    (hq : Event.query q ps ∈ (run hosts output w).1) :
    hosts ≠ [] ∧ q = query_for hosts ∧ ps = hosts := by
  match hosts with
  | [] => exact absurd hq (by simp [run])
  | a :: t =>
    refine ⟨by simp, ?_⟩
    rw [run_cons_eq] at hq
    rcases hdb : get_db_path w.dataDir w.homeDir w.fs with _ | dbPath <;>
      simp only [hdb] at hq
    · simp at hq
    · rcases hopen : w.openDb dbPath with e | db <;> simp only [hopen] at hq
      · simp at hq
      · rcases hprep : db.prepareError (query_for (a :: t)) with _ | e <;>
          simp only [hprep] at hq
        · rcases hdec : decodeRows (db.resultRows (query_for (a :: t)) (a :: t))
              with e | cookies <;> simp only [hdec] at hq
          · simp at hq
            exact ⟨hq.1, hq.2⟩
          · rcases output with _ | path <;> simp at hq <;> exact ⟨hq.1, hq.2⟩
        · simp at hq
          exact ⟨hq.1, hq.2⟩

/-! ## Claim theorems: pipeline -/

/-- C6: a store-open failure, a query-preparation failure, or a decode failure
on any result row each abort the run with that error; any failing run exits
with code 1, prints the message, and its trace contains no file-creation and no
write event — so nothing is ever written and the output file is never created
or truncated, and no record list is produced. -/
theorem C6_failures_abort_without_output
    (hosts : List String) (output : Option String) (w : World) :
    (∀ e, (run hosts output w).2 = Except.error e →
        main_result hosts output w = (1, some e)
        ∧ ∀ ev ∈ (run hosts output w).1,
            (∀ p, ev ≠ Event.createFile p) ∧ (∀ s c, ev ≠ Event.write s c))
    ∧ (∀ dbPath msg, get_db_path w.dataDir w.homeDir w.fs = some dbPath →
        w.openDb dbPath = Except.error msg → hosts ≠ [] →
        (run hosts output w).2 = Except.error msg)
    ∧ (∀ dbPath db msg, get_db_path w.dataDir w.homeDir w.fs = some dbPath →
        w.openDb dbPath = Except.ok db →
        db.prepareError (query_for hosts) = some msg → hosts ≠ [] →
        (run hosts output w).2 = Except.error msg)
    ∧ (∀ dbPath db msg, get_db_path w.dataDir w.homeDir w.fs = some dbPath →
        w.openDb dbPath = Except.ok db →
        db.prepareError (query_for hosts) = none →
        decodeRows (db.resultRows (query_for hosts) hosts) = Except.error msg → hosts ≠ [] →
        (run hosts output w).2 = Except.error msg) := by
  refine ⟨?_, ?_, ?_, ?_⟩
  · intro e he
    match hosts with
    | [] => exact absurd he (by simp [run])
    | a :: t =>
      rw [run_cons_eq] at he ⊢
      rw [show main_result (a :: t) output w
            = (match (run (a :: t) output w).2 with
               | Except.ok _ => ((0 : Nat), (none : Option String))
               | Except.error e => (1, some e)) from rfl, run_cons_eq]
      rcases hdb : get_db_path w.dataDir w.homeDir w.fs with _ | dbPath <;>
        simp only [hdb] at he ⊢
      · simp at he
        subst he
        exact ⟨rfl, by intro ev hev; simp at hev; subst hev; exact ⟨fun p => by simp, fun s c => by simp⟩⟩
      · rcases hopen : w.openDb dbPath with msg | db <;> simp only [hopen] at he ⊢
        · simp at he
          subst he
          refine ⟨rfl, ?_⟩
          intro ev hev
          simp only [List.mem_cons, List.not_mem_nil, or_false] at hev
          rcases hev with rfl | rfl <;> exact ⟨fun p => by simp, fun s c => by simp⟩
        · rcases hprep : db.prepareError (query_for (a :: t)) with _ | msg <;>
            simp only [hprep] at he ⊢
          · rcases hdec : decodeRows (db.resultRows (query_for (a :: t)) (a :: t))
                with msg | cookies <;> simp only [hdec] at he ⊢
            · simp at he
              subst he
              refine ⟨rfl, ?_⟩
              intro ev hev
              simp only [List.mem_cons, List.not_mem_nil, or_false] at hev
              rcases hev with rfl | rfl | rfl <;>
                exact ⟨fun p => by simp, fun s c => by simp⟩
            · rcases output with _ | path <;> simp at he
          · simp at he
            subst he
            refine ⟨rfl, ?_⟩
            intro ev hev
            simp only [List.mem_cons, List.not_mem_nil, or_false] at hev
            rcases hev with rfl | rfl | rfl <;>
              exact ⟨fun p => by simp, fun s c => by simp⟩
  · intro dbPath msg hdb hopen hne
    match hosts, hne with
    | a :: t, _ => simp [run_cons_eq, hdb, hopen]
  · intro dbPath db msg hdb hopen hprep hne
    match hosts, hne with
    | a :: t, _ => simp [run_cons_eq, hdb, hopen, hprep]
  · intro dbPath db msg hdb hopen hprep hdec hne
    match hosts, hne with
    | a :: t, _ => simp [run_cons_eq, hdb, hopen, hprep, hdec]

/-- C7: in every run with a non-empty hostname list, whatever is written (to
either sink) is the fixed four-line comment header, followed by exactly one
blank line, followed by the data lines and nothing else — for zero records the
output ends right after the blank line, and there is never a trailing footer. -/
theorem C7_output_is_header_blank_then_lines
    (hosts : List String) (output : Option String) (w : World)
    (s : Sink) (content : String)
    (hne : hosts ≠ []) (hw : Event.write s content ∈ (run hosts output w).1) :
    (∃ cookies : List MozCookie,
        content = COOKIE_FILE_HEADER ++ "\n" ++ "\n"
          ++ String.join (cookies.map (fun c => MozCookie.fmt c ++ "\n")))
    ∧ COOKIE_FILE_HEADER.data.count '\n' = 3 := by
  refine ⟨?_, by decide⟩
  match hosts with
  | [] => exact absurd hw (by simp [run])
  | a :: t =>
    rw [run_cons_eq] at hw
    rcases hdb : get_db_path w.dataDir w.homeDir w.fs with _ | dbPath <;>
      simp only [hdb] at hw
    · simp at hw
    · rcases hopen : w.openDb dbPath with e | db <;> simp only [hopen] at hw
      · simp at hw
      · rcases hprep : db.prepareError (query_for (a :: t)) with _ | e <;>
          simp only [hprep] at hw
        · rcases hdec : decodeRows (db.resultRows (query_for (a :: t)) (a :: t))
              with e | cookies <;> simp only [hdec] at hw
          · simp at hw
          · rcases output with _ | path <;> simp at hw
            · exact ⟨cookies, by rw [hw.2, format_stdout_content_eq]⟩
            · exact ⟨cookies, by rw [hw.2, save_to_path_content_eq]⟩
        · simp at hw

/-- C8: the SQL query text depends only on the number of hostnames — equal-length
host lists yield identical query strings — and the hostname values themselves
reach the query only as the positional parameter list attached to the query
event, never inside the query text. -/
theorem C8_query_text_depends_only_on_count (h1 h2 : List String)
    (output : Option String) (w : World) (q : String) (ps : List String)
    (hlen : h1.length = h2.length) :
    query_for h1 = query_for h2
    ∧ (Event.query q ps ∈ (run h1 output w).1 → q = query_for h1 ∧ ps = h1) := by
  constructor
  · rw [query_for, query_for, hlen]
  · intro hq
    exact (query_event_shape h1 output w q ps hq).2

/-- C10: any execution that reaches SQL query construction (i.e. whose trace
contains a query event) has a non-empty hostname list, so the placeholder
generator is invoked with a count of at least 1, and the generated placeholder
list is non-empty (it contains at least one question mark); the zero-count
branch of `build_formatter` is unreachable from the query-construction site. -/
theorem C10_query_site_has_nonempty_hosts
    (hosts : List String) (output : Option String) (w : World)
    (q : String) (ps : List String)
    (hq : Event.query q ps ∈ (run hosts output w).1) :
    hosts ≠ [] ∧ 1 ≤ hosts.length ∧ q = query_for hosts ∧ ps = hosts
    ∧ build_formatter hosts.length ≠ ""
    ∧ '?' ∈ (build_formatter hosts.length).data := by
  obtain ⟨hne, hq', hps⟩ := query_event_shape hosts output w q ps hq
  match hosts, hne with
  | a :: t, _ =>
    refine ⟨by simp, by simp, hq', hps, ?_, ?_⟩
    · intro hempty
      have hc := (build_formatter_counts (a :: t).length).1
      rw [hempty] at hc
      simp at hc
    · have hc := (build_formatter_counts (a :: t).length).1
      have hpos : 0 < (build_formatter (a :: t).length).data.count '?' := by
        rw [hc]; simp
      exact List.count_pos_iff.mp hpos

/-! ## Concrete demonstration world (used by the witnesses) -/

def demoRow : SqlRow :=
  [("name", SqlValue.text "session"), ("value", SqlValue.text "abc123"),
   ("host", SqlValue.text "a.com"), ("path", SqlValue.text "/"),
   ("expiry", SqlValue.int 1700000000)]

def demoCookie : MozCookie :=
  { host := "a.com", path := "/", expiry := 1700000000, name := "session", value := "abc123" }

def demoDb : Db :=
  { prepareError := fun _ => none
    resultRows := fun _ _ => [demoRow] }

def demoWorld : World :=
  { dataDir := some ["data"], homeDir := some ["home"], fs := demoFs,
    openDb := fun _ => Except.ok demoDb }

def demoFailWorld : World :=
  { dataDir := some ["data"], homeDir := some ["home"], fs := demoFs,
    openDb := fun _ => Except.error "unable to open database file" }

def demoDbPath : FsPath := ["home", ".mozilla/firefox", "abc.default", "cookies.sqlite"]

/-- Witness for C6: a forced store-open failure yields exit code 1 with the
open error as the message (and, via the same theorem, an output-free trace). -/
theorem C6_witness :
    main_result ["a.com"] none demoFailWorld = (1, some "unable to open database file") := by
  have herr := (C6_failures_abort_without_output ["a.com"] none demoFailWorld).2.1
    demoDbPath "unable to open database file" (by decide) rfl (by decide)
  exact ((C6_failures_abort_without_output ["a.com"] none demoFailWorld).1
    "unable to open database file" herr).1

set_option maxRecDepth 16384 in
/-- Witness for C7 at a concrete successful run writing to stdout. -/
theorem C7_witness :
    (∃ cookies : List MozCookie,
        format_stdout_content [demoCookie] = COOKIE_FILE_HEADER ++ "\n" ++ "\n"
          ++ String.join (cookies.map (fun c => MozCookie.fmt c ++ "\n")))
    ∧ COOKIE_FILE_HEADER.data.count '\n' = 3 :=
  C7_output_is_header_blank_then_lines ["a.com"] none demoWorld Sink.stdout
    (format_stdout_content [demoCookie]) (by decide) (by decide)

/-- Witness for C8 at two concrete equal-length host lists with different
contents (one containing SQL metacharacters). -/
theorem C8_witness :
    query_for ["a.com", "b.com"] = query_for ["x; drop table moz_cookies; --", "z"]
    ∧ (Event.query (query_for ["a.com", "b.com"]) ["a.com", "b.com"]
          ∈ (run ["a.com", "b.com"] none demoWorld).1 →
        query_for ["a.com", "b.com"] = query_for ["a.com", "b.com"]
          ∧ ["a.com", "b.com"] = ["a.com", "b.com"]) :=
  C8_query_text_depends_only_on_count ["a.com", "b.com"] ["x; drop table moz_cookies; --", "z"]
    none demoWorld (query_for ["a.com", "b.com"]) ["a.com", "b.com"] (by decide)

/-- Witness for C10 at a concrete run whose trace contains the query event. -/
theorem C10_witness :
    (["a.com"] : List String) ≠ [] ∧ 1 ≤ (["a.com"] : List String).length
    ∧ query_for ["a.com"] = query_for ["a.com"]
    ∧ (["a.com"] : List String) = ["a.com"]
    ∧ build_formatter (["a.com"] : List String).length ≠ ""
    ∧ '?' ∈ (build_formatter (["a.com"] : List String).length).data :=
  C10_query_site_has_nonempty_hosts ["a.com"] none demoWorld
    (query_for ["a.com"]) ["a.com"] (by decide)

end Dognap
